import Mathlib

/-
Verification of src/ScalePolygonAnnotation.py: a command-line utility that
submits one polygon-annotation job to a remote labeling API over HTTP.

Shallow embedding conventions:
- The process environment is modelled as the value of the single variable
  SCALE_API_KEY: an `Option String` (`none` means unset; Python's
  `os.environ.get` returns `None` then).
- The remote service is an opaque collaborator; its answer to the single
  POST is an `HttpOutcome` input: a timeout, a connection failure, or a
  response with an HTTP status code and a JSON body.  Response bodies are
  modelled as already-parsed JSON values; the wire text of a body is its
  serialization `Json.render`.
- `sys.exit`, the classified exceptions, and the printed stderr lines are
  made explicit in the result type `CallTrace`.
- `requests.Response.raise_for_status` raises `HTTPError` exactly when the
  status code is in [400, 600); that library behaviour is embedded as the
  guard in `httpPhase`.
- Python's `in` operator on a parsed JSON value checks dict keys, list
  membership, or substring, and raises `TypeError` on the other shapes;
  `pyContains` returns `none` for the `TypeError` case.
- `str()` of a parsed JSON value (used in the ValueError diagnostic of line
  114) is `Json.pyRepr`, modelling Python's repr of dict/list/str/bool/None
  values (string escaping is not modelled; bodies considered here contain
  no characters needing escapes).
-/

/- Parsed JSON values, as returned by `response.json()`.  Lists and
objects carry their own spine so that recursion and decidable equality
work structurally. -/
mutual
inductive Json where
  | null : Json
  | bool (b : Bool) : Json
  | num (n : Int) : Json
  | str (s : String) : Json
  | arr (xs : JsonList) : Json
  | obj (kvs : JsonObj) : Json
deriving DecidableEq, Repr

inductive JsonList where
  | nil : JsonList
  | cons (hd : Json) (tl : JsonList) : JsonList
deriving DecidableEq, Repr

inductive JsonObj where
  | nil : JsonObj
  | cons (k : String) (v : Json) (tl : JsonObj) : JsonObj
deriving DecidableEq, Repr
end

/-- A single-quote character, built by code point to keep string literals
plain. -/
def pyQuote : String := String.singleton (Char.ofNat 39)

/- Wire-format serialization of a JSON value (the `text` of a response
whose body is that value). -/
mutual
def Json.render : Json → String
  | .null => "null"
  | .bool b => cond b "true" "false"
  | .num n => toString n
  | .str s => "\"" ++ s ++ "\""
  | .arr xs => "[" ++ JsonList.renderItems xs ++ "]"
  | .obj kvs => "\x7b" ++ JsonObj.renderItems kvs ++ "\x7d"

def JsonList.renderItems : JsonList → String
  | .nil => ""
  | .cons x .nil => x.render
  | .cons x (.cons y tl) => x.render ++ ", " ++ JsonList.renderItems (.cons y tl)

def JsonObj.renderItems : JsonObj → String
  | .nil => ""
  | .cons k v .nil => "\"" ++ k ++ "\": " ++ v.render
  | .cons k v (.cons k2 v2 tl) =>
      "\"" ++ k ++ "\": " ++ v.render ++ ", " ++ JsonObj.renderItems (.cons k2 v2 tl)
end

/- Python `str()` of a parsed JSON value: repr of dicts, lists, strings
(single-quoted), `True`/`False`/`None`.  Used by the diagnostic of the
`ValueError` raised at line 114. -/
mutual
def Json.pyRepr : Json → String
  | .null => "None"
  | .bool b => cond b "True" "False"
  | .num n => toString n
  | .str s => pyQuote ++ s ++ pyQuote
  | .arr xs => "[" ++ JsonList.pyReprItems xs ++ "]"
  | .obj kvs => "\x7b" ++ JsonObj.pyReprItems kvs ++ "\x7d"

def JsonList.pyReprItems : JsonList → String
  | .nil => ""
  | .cons x .nil => x.pyRepr
  | .cons x (.cons y tl) => x.pyRepr ++ ", " ++ JsonList.pyReprItems (.cons y tl)

def JsonObj.pyReprItems : JsonObj → String
  | .nil => ""
  | .cons k v .nil => pyQuote ++ k ++ pyQuote ++ ": " ++ v.pyRepr
  | .cons k v (.cons k2 v2 tl) =>
      pyQuote ++ k ++ pyQuote ++ ": " ++ v.pyRepr ++ ", " ++ JsonObj.pyReprItems (.cons k2 v2 tl)
end

/-- Does a JSON object (dict) carry the given key? -/
def JsonObj.hasKey : JsonObj → String → Bool
  | .nil, _ => false
  | .cons k _ tl, key => k = key || JsonObj.hasKey tl key

/-- First value bound to the given key in a JSON object. -/
def JsonObj.lookup : JsonObj → String → Option Json
  | .nil, _ => none
  | .cons k v tl, key => if k = key then some v else JsonObj.lookup tl key

/-- Does a JSON list contain the given string as an element?  (Python
`key in list` with `==` element comparison; only a string element can
equal a string.) -/
def JsonList.hasStrElem : JsonList → String → Bool
  | .nil, _ => false
  | .cons (.str s) tl, key => s = key || JsonList.hasStrElem tl key
  | .cons _ tl, key => JsonList.hasStrElem tl key

/-- Is `pat` a contiguous substring of the character list? -/
def charListHasSub (pat : List Char) : List Char → Bool
  | [] => pat.isEmpty
  | c :: tl => pat.isPrefixOf (c :: tl) || charListHasSub pat tl

/-- Python `pat in hay` on strings: substring test. -/
def strHasSub (hay pat : String) : Bool := charListHasSub pat.toList hay.toList

/-- Python `key in value` on a parsed JSON value: dict keys, list
membership, substring; `none` models the `TypeError` raised on the other
shapes (numbers, booleans, `None`). -/
def pyContains (j : Json) (key : String) : Option Bool :=
  match j with
  | .obj kvs => some (kvs.hasKey key)
  | .arr xs => some (xs.hasStrElem key)
  | .str s => some (strHasSub s key)
  | _ => none

/-- The `task_id` field of a JSON value, when the value is an object that
carries it. -/
def Json.lookupField (j : Json) (key : String) : Option Json :=
  match j with
  | .obj kvs => kvs.lookup key
  | _ => none

/-- Outcome of `validate_environment` (lines 26-41): either the process
exits with a code after printing lines to stderr, or the function returns
the key. -/
inductive EnvResult where
  | exits (code : Nat) (stderr : List String) : EnvResult
  | returns (key : String) : EnvResult
deriving DecidableEq, Repr

/-- The two stderr lines printed when SCALE_API_KEY is missing (lines
38-39). -/
def envMissingMsgs : List String :=
  ["Error: SCALE_API_KEY environment variable is not set.",
   "Please set it with: export SCALE_API_KEY=" ++ pyQuote ++ "your_scale_api_key" ++ pyQuote]

/-- Lines 26-41: read SCALE_API_KEY; `if not api_key` is true for an unset
variable (`None`) and for the empty string; then print two stderr lines
and `sys.exit(1)`; otherwise return the key unchanged. -/
def validate_environment (env : Option String) : EnvResult :=
  match env with
  | none => .exits 1 envMissingMsgs
  | some k => if k = "" then .exits 1 envMissingMsgs else .returns k

/-- The keyword arguments of `create_scale_task` (lines 44-52), with the
source defaults; `none` for `objects_to_annotate` and `api_key` is
Python's `None`. -/
structure TaskArgs where
  callback_url : String := "https://scale-demo.herokuapp.com/scale/callback"
  objects_to_annotate : Option (List String) := none
  attachment : String := "https://scale.com/static/img/website/index/example-ia-boxes.jpg"
  instruction : String := "Draw a tight polygon around every **car** in the image."
  with_labels : Bool := true
  attachment_type : String := "image"
  api_key : Option String := none
deriving DecidableEq, Repr

/-- The `payload` dict of lines 82-89, in source field order. -/
structure Payload where
  callback_url : String
  objects_to_annotate : List String
  attachment : String
  with_labels : Bool
  instruction : String
  attachment_type : String
deriving DecidableEq, Repr

/-- Lines 73-75 and 82-89: default the object list to `["car", "suv"]`
when `None`, then assemble the payload record. -/
def buildPayload (args : TaskArgs) : Payload :=
  { callback_url := args.callback_url
    objects_to_annotate := args.objects_to_annotate.getD ["car", "suv"]
    attachment := args.attachment
    with_labels := args.with_labels
    instruction := args.instruction
    attachment_type := args.attachment_type }

/-- A List String as a JSON array of strings (the `json=` serialization of
a Python list of str). -/
def JsonList.ofStrings : List String → JsonList
  | [] => .nil
  | s :: tl => .cons (.str s) (JsonList.ofStrings tl)

/-- JSON serialization of the payload dict, keys in source order. -/
def Payload.toJson (p : Payload) : Json :=
  .obj (.cons "callback_url" (.str p.callback_url)
       (.cons "objects_to_annotate" (.arr (JsonList.ofStrings p.objects_to_annotate))
       (.cons "attachment" (.str p.attachment)
       (.cons "with_labels" (.bool p.with_labels)
       (.cons "instruction" (.str p.instruction)
       (.cons "attachment_type" (.str p.attachment_type) .nil))))))

/-- The outbound HTTP request of lines 98-104: `requests.post` with the
fixed URL, `json=payload`, the Content-Type header, `auth=(api_key, '')`,
and `timeout=30`. -/
structure Request where
  method : String
  url : String
  body : Json
  headers : List (String × String)
  authUser : String
  authPass : String
  timeoutSeconds : Nat
deriving DecidableEq, Repr

/-- Lines 91-104 assembled as a record. -/
def buildRequest (p : Payload) (key : String) : Request :=
  { method := "POST"
    url := "https://api.scale.com/v1/task/polygonannotation"
    body := p.toJson
    headers := [("Content-Type", "application/json")]
    authUser := key
    authPass := ""
    timeoutSeconds := 30 }

/-- What the opaque remote collaborator does with the single POST. -/
inductive HttpOutcome where
  | timeout : HttpOutcome
  | connFailure : HttpOutcome
  | response (status : Nat) (body : Json) : HttpOutcome
deriving DecidableEq, Repr

/-- How `create_scale_task` ends: `sys.exit` escaping from
`validate_environment`; one of the re-raised classified exceptions
(`requests.exceptions.Timeout`, `ConnectionError`, `HTTPError` with status
and response text, `ValueError` with its message, an unhandled
`TypeError`); or the returned parsed response. -/
inductive CallResult where
  | sysExit (code : Nat) : CallResult
  | timeoutError : CallResult
  | connectionError : CallResult
  | httpError (status : Nat) (text : String) : CallResult
  | valueError (msg : String) : CallResult
  | typeError : CallResult
  | ok (resp : Json) : CallResult
deriving DecidableEq, Repr

/-- `true` exactly when the call ended in `sys.exit`. -/
def CallResult.isExit : CallResult → Bool
  | .sysExit _ => true
  | _ => false

/-- Everything observable about one `create_scale_task` call: the request
it sent (if any), the stderr lines it printed, and how it ended. -/
structure CallTrace where
  sent : Option Request
  stderr : List String
  result : CallResult
deriving DecidableEq, Repr

/-- Lines 77-79: use the `api_key` argument when given, else resolve from
the environment via `validate_environment`. -/
def resolveApiKey (args : TaskArgs) (env : Option String) : EnvResult :=
  match args.api_key with
  | some k => .returns k
  | none => validate_environment env

/-- The `try` block and `except` clauses of lines 94-132, after the
request `req` was sent and the remote answered with `outcome`:
- `Timeout` is caught first (line 118): stderr diagnostic, re-raise.
- `ConnectionError` (line 121): stderr diagnostic, re-raise.
- `raise_for_status` (line 107) raises `HTTPError` iff the status is in
  [400, 600); the handler at line 124 prints `HTTP <code> - <text>` and
  re-raises.
- Otherwise `'task_id' not in task_response` (line 113) raises
  `ValueError` whose message embeds `str(task_response)`, printed by the
  handler at line 130 and re-raised; a body shape on which Python `in`
  raises `TypeError` escapes uncaught with no diagnostic; else the parsed
  body is returned (line 116). -/
def httpPhase (req : Request) (outcome : HttpOutcome) : CallTrace :=
  match outcome with
  | .timeout =>
      { sent := some req
        stderr := ["Error: Request timed out. Please check your network connection."]
        result := .timeoutError }
  | .connFailure =>
      { sent := some req
        stderr := ["Error: Failed to connect to Scale API. Please check your network connection."]
        result := .connectionError }
  | .response status body =>
      if 400 ≤ status ∧ status < 600 then
        { sent := some req
          stderr := ["Error: HTTP " ++ toString status ++ " - " ++ body.render]
          result := .httpError status body.render }
      else
        match pyContains body "task_id" with
        | some true => { sent := some req, stderr := [], result := .ok body }
        | some false =>
            { sent := some req
              stderr := ["Error: Unexpected response format: " ++ body.pyRepr]
              result := .valueError ("Unexpected response format: " ++ body.pyRepr) }
        | none => { sent := some req, stderr := [], result := .typeError }

/-- Lines 44-132: resolve the credential (a failed resolution is
`sys.exit(1)` escaping the function, after `validate_environment`'s
stderr lines, with no request sent), then build the payload and request
and run the HTTP phase. -/
def create_scale_task (args : TaskArgs) (env : Option String)
    (outcome : HttpOutcome) : CallTrace :=
  match resolveApiKey args env with
  | .exits c errs => { sent := none, stderr := errs, result := .sysExit c }
  | .returns key => httpPhase (buildRequest (buildPayload args) key) outcome

/-- A successful key lookup means the key test succeeds. -/
lemma JsonObj.lookup_some_hasKey :
    ∀ (kvs : JsonObj) (key : String) (v : Json),
      kvs.lookup key = some v → kvs.hasKey key = true
  | .nil, _, _, h => by simp [JsonObj.lookup] at h
  | .cons k v0 tl, key, v, h => by
      unfold JsonObj.lookup at h
      unfold JsonObj.hasKey
      by_cases hk : k = key
      · simp [hk]
      · rw [if_neg hk] at h
        have htl := JsonObj.lookup_some_hasKey tl key v h
        simp [hk, htl]

/-- When credential resolution yields a key, the call is the HTTP phase on
the request built from the payload and that key. -/
lemma create_scale_task_of_returns (args : TaskArgs) (env : Option String)
    (outcome : HttpOutcome) (key : String)
    (h : resolveApiKey args env = .returns key) :
    create_scale_task args env outcome =
      httpPhase (buildRequest (buildPayload args) key) outcome := by
  unfold create_scale_task
  rw [h]

/-- C1: for every successful (2xx) remote call whose parsed JSON body
contains the field "task_id" with value "abc123", create_scale_task
returns the parsed body, whose task identifier equals "abc123". -/
theorem c1_success_returns_task_id (args : TaskArgs) (env : Option String)
    (key : String) (status : Nat) (kvs : JsonObj)
    (hres : resolveApiKey args env = .returns key)
    (h2 : 200 ≤ status) (h3 : status < 300)
    (hid : kvs.lookup "task_id" = some (.str "abc123")) :
    (create_scale_task args env (.response status (.obj kvs))).result =
      .ok (.obj kvs) ∧
    (Json.obj kvs).lookupField "task_id" = some (.str "abc123") := by
  constructor
  · rw [create_scale_task_of_returns args env _ key hres]
    simp only [httpPhase]
    rw [if_neg (by omega)]
    have hk : kvs.hasKey "task_id" = true :=
      JsonObj.lookup_some_hasKey kvs _ _ hid
    simp [pyContains, hk]
  · simpa [Json.lookupField] using hid

theorem c1_witness :
    resolveApiKey { api_key := some "k" } none = .returns "k" ∧
    (200 ≤ 200 ∧ 200 < 300) ∧
    (JsonObj.cons "task_id" (.str "abc123") .nil).lookup "task_id" =
      some (.str "abc123") ∧
    ((create_scale_task { api_key := some "k" } none
        (.response 200 (.obj (.cons "task_id" (.str "abc123") .nil)))).result =
      .ok (.obj (.cons "task_id" (.str "abc123") .nil)) ∧
    (Json.obj (.cons "task_id" (.str "abc123") .nil)).lookupField "task_id" =
      some (.str "abc123")) := by
  refine ⟨rfl, by omega, rfl, ?_⟩
  exact c1_success_returns_task_id _ none "k" 200 _ rfl (by omega) (by omega) rfl

/-- C2: for every environment in which SCALE_API_KEY is absent or empty,
validate_environment exits the process with code 1 after printing
(non-empty) diagnostics to stderr — it never returns a value. -/
theorem c2_missing_env_exits (env : Option String)
    (h : env = none ∨ env = some "") :
    validate_environment env = .exits 1 envMissingMsgs ∧
    envMissingMsgs ≠ [] := by
  constructor
  · rcases h with h | h <;> subst h <;> simp [validate_environment]
  · simp [envMissingMsgs]

theorem c2_witness :
    ((none : Option String) = none ∨ (none : Option String) = some "") ∧
    (validate_environment none = .exits 1 envMissingMsgs ∧
     envMissingMsgs ≠ []) :=
  ⟨Or.inl rfl, c2_missing_env_exits none (Or.inl rfl)⟩

/-- C3: for every present non-empty value of SCALE_API_KEY,
validate_environment returns exactly that string, unchanged. -/
theorem c3_present_key_returned (s : String) (h : s ≠ "") :
    validate_environment (some s) = .returns s := by
  simp [validate_environment, h]

theorem c3_witness :
    "test_api_key" ≠ "" ∧
    validate_environment (some "test_api_key") = .returns "test_api_key" :=
  ⟨by decide, c3_present_key_returned _ (by decide)⟩

/-- Every branch of the HTTP phase records the request that was sent. -/
lemma httpPhase_sent (req : Request) (outcome : HttpOutcome) :
    (httpPhase req outcome).sent = some req := by
  cases outcome with
  | timeout => rfl
  | connFailure => rfl
  | response status body =>
      simp only [httpPhase]
      split
      · rfl
      · rcases hpc : pyContains body "task_id" with _ | b
        · simp [hpc]
        · cases b <;> simp [hpc]

/-- No branch of the HTTP phase ends in `sys.exit`. -/
lemma httpPhase_not_exit (req : Request) (outcome : HttpOutcome) :
    ((httpPhase req outcome).result).isExit = false := by
  cases outcome with
  | timeout => rfl
  | connFailure => rfl
  | response status body =>
      simp only [httpPhase]
      split
      · rfl
      · rcases hpc : pyContains body "task_id" with _ | b
        · simp [hpc, CallResult.isExit]
        · cases b <;> simp [hpc, CallResult.isExit]

/-- C4 as stated is false: a 2xx response whose parsed body is the JSON
list `["task_id"]` has no "task_id" field, yet Python's `in` finds the
string in the list, so create_scale_task returns the body to the caller
instead of failing with ValueError. -/
theorem c4_counterexample :
    (Json.arr (.cons (.str "task_id") .nil)).lookupField "task_id" = none ∧
    (create_scale_task { api_key := some "k" } none
        (.response 200 (.arr (.cons (.str "task_id") .nil)))).result =
      .ok (.arr (.cons (.str "task_id") .nil)) := by
  constructor <;> rfl

/-- C4 (amended): for every successful (2xx) remote call whose parsed
body is a JSON object lacking a "task_id" key, create_scale_task fails
with the malformed-response ValueError, the body's textual form appears
in the emitted stderr diagnostic, and the body is not returned. -/
theorem c4_missing_task_id_fails (args : TaskArgs) (env : Option String)
    (key : String) (status : Nat) (kvs : JsonObj)
    (hres : resolveApiKey args env = .returns key)
    (h2 : 200 ≤ status) (h3 : status < 300)
    (hk : kvs.hasKey "task_id" = false) :
    (create_scale_task args env (.response status (.obj kvs))).result =
      .valueError ("Unexpected response format: " ++ (Json.obj kvs).pyRepr) ∧
    (create_scale_task args env (.response status (.obj kvs))).stderr =
      ["Error: Unexpected response format: " ++ (Json.obj kvs).pyRepr] ∧
    (create_scale_task args env (.response status (.obj kvs))).result ≠
      .ok (.obj kvs) := by
  rw [create_scale_task_of_returns args env _ key hres]
  simp only [httpPhase]
  rw [if_neg (by omega)]
  simp [pyContains, hk]

theorem c4_witness :
    resolveApiKey { api_key := some "k" } none = .returns "k" ∧
    (200 ≤ 200 ∧ 200 < 300) ∧
    (JsonObj.cons "status" (.str "pending") .nil).hasKey "task_id" = false ∧
    ((create_scale_task { api_key := some "k" } none
        (.response 200 (.obj (.cons "status" (.str "pending") .nil)))).result =
      .valueError ("Unexpected response format: " ++
        (Json.obj (.cons "status" (.str "pending") .nil)).pyRepr) ∧
    (create_scale_task { api_key := some "k" } none
        (.response 200 (.obj (.cons "status" (.str "pending") .nil)))).stderr =
      ["Error: Unexpected response format: " ++
        (Json.obj (.cons "status" (.str "pending") .nil)).pyRepr] ∧
    (create_scale_task { api_key := some "k" } none
        (.response 200 (.obj (.cons "status" (.str "pending") .nil)))).result ≠
      .ok (.obj (.cons "status" (.str "pending") .nil))) := by
  refine ⟨rfl, by omega, by decide, ?_⟩
  exact c4_missing_task_id_fails _ none "k" 200 _ rfl (by omega) (by omega)
    (by decide)

/-- C5 as stated is false: HTTP 300 is not a 2xx status, yet
`raise_for_status` raises only for codes in [400, 600), so a 300 response
carrying a "task_id" field is returned successfully instead of failing
with an HTTP error. -/
theorem c5_counterexample :
    ¬ (200 ≤ 300 ∧ 300 < 300) ∧
    (create_scale_task { api_key := some "k" } none
        (.response 300 (.obj (.cons "task_id" (.str "x") .nil)))).result =
      .ok (.obj (.cons "task_id" (.str "x") .nil)) := by
  exact ⟨by omega, rfl⟩

/-- C5 (amended): for every remote call answered with a 4xx or 5xx HTTP
status, create_scale_task fails with an HTTP error carrying that status
code and the response text, after emitting a stderr diagnostic containing
both. -/
theorem c5_http_error_classified (args : TaskArgs) (env : Option String)
    (key : String) (status : Nat) (body : Json)
    (hres : resolveApiKey args env = .returns key)
    (h4 : 400 ≤ status) (h6 : status < 600) :
    (create_scale_task args env (.response status body)).result =
      .httpError status body.render ∧
    (create_scale_task args env (.response status body)).stderr =
      ["Error: HTTP " ++ toString status ++ " - " ++ body.render] := by
  rw [create_scale_task_of_returns args env _ key hres]
  simp only [httpPhase]
  rw [if_pos ⟨h4, h6⟩]
  exact ⟨rfl, rfl⟩

theorem c5_witness :
    resolveApiKey { api_key := some "k" } none = .returns "k" ∧
    (400 ≤ 500 ∧ 500 < 600) ∧
    ((create_scale_task { api_key := some "k" } none
        (.response 500 (.obj (.cons "error" (.str "internal") .nil)))).result =
      .httpError 500 (Json.obj (.cons "error" (.str "internal") .nil)).render ∧
    (create_scale_task { api_key := some "k" } none
        (.response 500 (.obj (.cons "error" (.str "internal") .nil)))).stderr =
      ["Error: HTTP " ++ toString 500 ++ " - " ++
        (Json.obj (.cons "error" (.str "internal") .nil)).render]) := by
  refine ⟨rfl, by omega, ?_⟩
  exact c5_http_error_classified _ none "k" 500 _ rfl (by omega) (by omega)

/-- C6: with no overrides (all arguments at their defaults, credential
from the environment), the sent request's payload has
objects_to_annotate = ["car", "suv"], with_labels = true and
attachment_type = "image". -/
theorem c6_default_payload (k : String) (outcome : HttpOutcome)
    (hk : k ≠ "") :
    (create_scale_task {} (some k) outcome).sent =
      some (buildRequest (buildPayload {}) k) ∧
    (buildPayload {}).objects_to_annotate = ["car", "suv"] ∧
    (buildPayload {}).with_labels = true ∧
    (buildPayload {}).attachment_type = "image" ∧
    (buildRequest (buildPayload {}) k).body.lookupField "objects_to_annotate" =
      some (.arr (.cons (.str "car") (.cons (.str "suv") .nil))) := by
  have hres : resolveApiKey {} (some k) = .returns k := by
    simp [resolveApiKey, validate_environment, hk]
  refine ⟨?_, rfl, rfl, rfl, ?_⟩
  · rw [create_scale_task_of_returns {} (some k) outcome k hres]
    exact httpPhase_sent _ _
  · simp [buildRequest, buildPayload, Payload.toJson, Json.lookupField,
      JsonObj.lookup, JsonList.ofStrings]

theorem c6_witness :
    ("k" : String) ≠ "" ∧
    ((create_scale_task {} (some "k") .timeout).sent =
      some (buildRequest (buildPayload {}) "k") ∧
    (buildPayload {}).objects_to_annotate = ["car", "suv"] ∧
    (buildPayload {}).with_labels = true ∧
    (buildPayload {}).attachment_type = "image" ∧
    (buildRequest (buildPayload {}) "k").body.lookupField "objects_to_annotate" =
      some (.arr (.cons (.str "car") (.cons (.str "suv") .nil)))) :=
  ⟨by decide, c6_default_payload "k" .timeout (by decide)⟩

/-- C7: for every caller-supplied list of object labels, the sent
request's payload carries exactly that list, in the same order. -/
theorem c7_labels_passed_through (args : TaskArgs) (env : Option String)
    (key : String) (labels : List String) (outcome : HttpOutcome)
    (hres : resolveApiKey args env = .returns key)
    (hlab : args.objects_to_annotate = some labels) :
    (create_scale_task args env outcome).sent =
      some (buildRequest (buildPayload args) key) ∧
    (buildPayload args).objects_to_annotate = labels ∧
    (buildRequest (buildPayload args) key).body.lookupField
        "objects_to_annotate" =
      some (.arr (JsonList.ofStrings labels)) := by
  have hpay : (buildPayload args).objects_to_annotate = labels := by
    simp [buildPayload, hlab]
  refine ⟨?_, hpay, ?_⟩
  · rw [create_scale_task_of_returns args env outcome key hres]
    exact httpPhase_sent _ _
  · simp [buildRequest, Payload.toJson, Json.lookupField, JsonObj.lookup, hpay]

/-- Arguments overriding the object labels with a three-element list. -/
def overriddenArgs : TaskArgs :=
  { objects_to_annotate := some ["car", "truck", "bus"], api_key := some "k" }

theorem c7_witness :
    resolveApiKey overriddenArgs none = .returns "k" ∧
    overriddenArgs.objects_to_annotate = some ["car", "truck", "bus"] ∧
    ((create_scale_task overriddenArgs none .timeout).sent =
      some (buildRequest (buildPayload overriddenArgs) "k") ∧
    (buildPayload overriddenArgs).objects_to_annotate =
      ["car", "truck", "bus"] ∧
    (buildRequest (buildPayload overriddenArgs) "k").body.lookupField
        "objects_to_annotate" =
      some (.arr (JsonList.ofStrings ["car", "truck", "bus"]))) :=
  ⟨rfl, rfl, c7_labels_passed_through _ none "k" _ .timeout rfl rfl⟩

/-- C8: every request create_scale_task sends carries the 30-unit
timeout bound, and a remote call that times out is classified as a
timeout — not as a connection error — after a stderr diagnostic. -/
theorem c8_timeout_classified (args : TaskArgs) (env : Option String)
    (outcome : HttpOutcome) :
    (∀ r, (create_scale_task args env outcome).sent = some r →
      r.timeoutSeconds = 30) ∧
    (∀ key, resolveApiKey args env = .returns key → outcome = .timeout →
      (create_scale_task args env outcome).result = .timeoutError ∧
      (create_scale_task args env outcome).result ≠ .connectionError ∧
      (create_scale_task args env outcome).stderr =
        ["Error: Request timed out. Please check your network connection."]) := by
  constructor
  · intro r hr
    cases hres : resolveApiKey args env with
    | exits c errs =>
        unfold create_scale_task at hr
        rw [hres] at hr
        simp at hr
    | returns key =>
        rw [create_scale_task_of_returns args env outcome key hres,
          httpPhase_sent] at hr
        obtain rfl := Option.some.inj hr
        rfl
  · intro key hres hout
    subst hout
    rw [create_scale_task_of_returns args env .timeout key hres]
    exact ⟨rfl, by simp [httpPhase], rfl⟩

theorem c8_witness :
    resolveApiKey { api_key := some "k" } none = .returns "k" ∧
    ((create_scale_task { api_key := some "k" } none .timeout).result =
      .timeoutError ∧
    (create_scale_task { api_key := some "k" } none .timeout).result ≠
      .connectionError ∧
    (create_scale_task { api_key := some "k" } none .timeout).stderr =
      ["Error: Request timed out. Please check your network connection."]) ∧
    (buildRequest (buildPayload { api_key := some "k" }) "k").timeoutSeconds =
      30 := by
  refine ⟨rfl,
    (c8_timeout_classified { api_key := some "k" } none .timeout).2 "k" rfl rfl,
    ?_⟩
  exact (c8_timeout_classified { api_key := some "k" } none .timeout).1
    (buildRequest (buildPayload { api_key := some "k" }) "k") rfl

/-- C9: whenever the credential resolves, the call sends exactly one
request: a POST to the fixed endpoint, whose body is the JSON
serialization of the payload record, with a JSON content-type header and
Basic-style credentials using the key as username and the empty string as
password. -/
theorem c9_request_shape (args : TaskArgs) (env : Option String)
    (key : String) (outcome : HttpOutcome)
    (hres : resolveApiKey args env = .returns key) :
    (create_scale_task args env outcome).sent =
      some (buildRequest (buildPayload args) key) ∧
    (buildRequest (buildPayload args) key).method = "POST" ∧
    (buildRequest (buildPayload args) key).url =
      "https://api.scale.com/v1/task/polygonannotation" ∧
    (buildRequest (buildPayload args) key).headers =
      [("Content-Type", "application/json")] ∧
    (buildRequest (buildPayload args) key).authUser = key ∧
    (buildRequest (buildPayload args) key).authPass = "" ∧
    (buildRequest (buildPayload args) key).body =
      (buildPayload args).toJson := by
  refine ⟨?_, rfl, rfl, rfl, rfl, rfl, rfl⟩
  rw [create_scale_task_of_returns args env outcome key hres]
  exact httpPhase_sent _ _

theorem c9_witness :
    resolveApiKey { api_key := some "k" } none = .returns "k" ∧
    ((create_scale_task { api_key := some "k" } none .connFailure).sent =
      some (buildRequest (buildPayload { api_key := some "k" }) "k") ∧
    (buildRequest (buildPayload { api_key := some "k" }) "k").method =
      "POST" ∧
    (buildRequest (buildPayload { api_key := some "k" }) "k").url =
      "https://api.scale.com/v1/task/polygonannotation" ∧
    (buildRequest (buildPayload { api_key := some "k" }) "k").headers =
      [("Content-Type", "application/json")] ∧
    (buildRequest (buildPayload { api_key := some "k" }) "k").authUser =
      "k" ∧
    (buildRequest (buildPayload { api_key := some "k" }) "k").authPass =
      "" ∧
    (buildRequest (buildPayload { api_key := some "k" }) "k").body =
      (buildPayload { api_key := some "k" }).toJson) :=
  ⟨rfl, c9_request_shape _ none "k" .connFailure rfl⟩

/-- C10: an explicitly supplied api_key — the empty string included — is
used as the Basic-auth username with no environment lookup, validation or
process exit. -/
theorem c10_explicit_key_bypasses_env (args : TaskArgs) (env : Option String)
    (outcome : HttpOutcome) (s : String) (h : args.api_key = some s) :
    (create_scale_task args env outcome).sent =
      some (buildRequest (buildPayload args) s) ∧
    (buildRequest (buildPayload args) s).authUser = s ∧
    ((create_scale_task args env outcome).result).isExit = false := by
  have hres : resolveApiKey args env = .returns s := by
    unfold resolveApiKey
    rw [h]
  rw [create_scale_task_of_returns args env outcome s hres]
  exact ⟨httpPhase_sent _ _, rfl, httpPhase_not_exit _ _⟩

theorem c10_witness :
    ({ api_key := some "" } : TaskArgs).api_key = some "" ∧
    ((create_scale_task { api_key := some "" } none .timeout).sent =
      some (buildRequest (buildPayload { api_key := some "" }) "") ∧
    (buildRequest (buildPayload { api_key := some "" }) "").authUser = "" ∧
    ((create_scale_task { api_key := some "" } none .timeout).result).isExit =
      false) :=
  ⟨rfl, c10_explicit_key_bypasses_env _ none .timeout "" rfl⟩
